import Mathlib

/-!
Verification of the yatube blogging platform's data model and
query/feed-composition rules, shallowly embedded from the source:

* `src/yatube/posts/models.py` — entities `Group`, `Post`, `Comment`,
  `Follow` and their declared constraints and delete behaviours;
* `src/yatube/posts/forms.py` — `PostForm.clean_text`;
* `src/yatube/core/utils.py` — `custom_paginator`, which delegates to the
  framework paginator (`django.core.paginator.Paginator.get_page`), whose
  semantics are embedded here as well.

Entities are records over `Nat` ids; the relational store is a record of
lists (rows in insertion order, as a relational table with an
auto-incrementing primary key behaves).
-/

namespace Yatube

/-- models.py `Group`: `title`, unique `slug`, `description`. -/
structure Group where
  id : Nat
  title : String
  slug : String
  description : String
deriving DecidableEq, Repr

/-- models.py `Post`: `text`, `pub_date` (auto_now_add), `author`
(FK User, on_delete=CASCADE), `group` (FK Group, on_delete=SET_NULL,
nullable), `image` (blank allowed, stored as a path string). -/
structure Post where
  id : Nat
  text : String
  pub_date : Nat
  author : Nat
  group : Option Nat
  image : String
deriving DecidableEq, Repr

/-- models.py `Comment`: `post` (FK Post, on_delete=SET_NULL, nullable),
`author` (FK User, on_delete=CASCADE), `text`, `created` (auto_now_add). -/
structure Comment where
  id : Nat
  post : Option Nat
  author : Nat
  text : String
  created : Nat
deriving DecidableEq, Repr

/-- models.py `Follow`: `user` (FK User, CASCADE), `author` (FK User,
CASCADE).  Its `Meta.constraints` declare exactly one constraint: the
CheckConstraint `~Q(user=F('author'))` (no self-follow).  No uniqueness
constraint on the pair `(user, author)` is declared. -/
structure Follow where
  id : Nat
  user : Nat
  author : Nat
deriving DecidableEq, Repr

/-- The relational store: one table per entity, rows in insertion order,
plus the next free primary key. -/
structure Store where
  users : List Nat
  groups : List Group
  posts : List Post
  comments : List Comment
  follows : List Follow
  nextId : Nat
deriving DecidableEq, Repr

/-- The empty store. -/
def Store.empty : Store :=
  { users := [], groups := [], posts := [], comments := [], follows := []
    nextId := 0 }

/-- Number of Follow rows for the ordered pair `(u, a)`. -/
def followCount (u a : Nat) (s : Store) : Nat :=
  (s.follows.filter (fun f => f.user == u && f.author == a)).length

/-- Insertion of a Follow row as the database performs it for
`Follow.objects.create(user=u, author=a)`: the declared constraints of
`Follow.Meta` are checked — only the no-self-follow CheckConstraint is
declared — and on success the row is appended.  models.py declares no
unique constraint on `(user, author)`, so no duplicate check happens. -/
def followCreate (u a : Nat) (s : Store) : Except String Store :=
  if u = a then .error "Вы не можете подписаться на себя"
  else .ok { s with
    follows := s.follows ++ [{ id := s.nextId, user := u, author := a }]
    nextId := s.nextId + 1 }

/-- forms.py `PostForm.clean_text`: rejects exactly the empty string,
returns the data unchanged otherwise (no trimming). -/
def clean_text (data : String) : Except String String :=
  if data = "" then .error "Напишите текст поста!" else .ok data

/-- Python str.strip() as CharField.to_python applies it: surrounding
whitespace characters removed from both ends. -/
def strip (s : String) : String :=
  ⟨((s.data.dropWhile Char.isWhitespace).reverse.dropWhile
      Char.isWhitespace).reverse⟩

/-- Field-level cleaning of `text` as Django generates it for PostForm:
the model's `TextField` is required (blank is not allowed), so the form
field is a CharField with strip=True — the value is stripped of
surrounding whitespace and rejected with the required-field error when
the stripped value is empty; only then does `PostForm.clean_text` run,
on the stripped value (its own empty-string check is thus unreachable). -/
def clean_text_field (data : String) : Except String String :=
  if strip data = "" then .error "Обязательное поле."
  else clean_text (strip data)

/-- Creation of a Post through the form: the field-level cleaning and
`clean_text` validate the text, then the row is inserted with `pub_date`
set at creation time. -/
def createPost (author : Nat) (text : String) (grp : Option Nat)
    (image : String) (now : Nat) (s : Store) : Except String Store :=
  match clean_text_field text with
  | .error e => .error e
  | .ok t => .ok { s with
      posts := s.posts ++
        [{ id := s.nextId, text := t, pub_date := now, author := author
           group := grp, image := image }]
      nextId := s.nextId + 1 }

/-- Deletion of a Group row.  `Post.group` declares `on_delete=SET_NULL`:
posts referencing the deleted group keep all their fields but have
`group` cleared; no post is deleted. -/
def deleteGroup (g : Nat) (s : Store) : Store :=
  { s with
    groups := s.groups.filter (fun x => !(x.id == g))
    posts := s.posts.map (fun p =>
      if p.group == some g then { p with group := none } else p) }

/-- Deletion of a Post row.  `Comment.post` declares `on_delete=SET_NULL`:
comments referencing the deleted post keep all their fields but have
`post` cleared; no comment is deleted. -/
def deletePost (pid : Nat) (s : Store) : Store :=
  { s with
    posts := s.posts.filter (fun p => !(p.id == pid))
    comments := s.comments.map (fun c =>
      if c.post == some pid then { c with post := none } else c) }

/-- Deletion of a User row, following the declared `on_delete` rules:
`Post.author`, `Comment.author`, `Follow.user` and `Follow.author` are all
CASCADE, so the user's posts, the user's comments, and every follow edge
mentioning the user (either side) are deleted with them; the cascade
deletion of the user's posts then triggers SET_NULL on surviving comments
that referenced those posts.  Groups are not referenced and stay. -/
def deleteUser (u : Nat) (s : Store) : Store :=
  let deadPosts := s.posts.filter (fun p => p.author == u)
  { s with
    users := s.users.filter (fun v => !(v == u))
    posts := s.posts.filter (fun p => !(p.author == u))
    comments := (s.comments.filter (fun c => !(c.author == u))).map (fun c =>
      if (match c.post with
          | some pid => deadPosts.any (fun p => p.id == pid)
          | none => false)
      then { c with post := none } else c)
    follows := s.follows.filter (fun f => !(f.user == u || f.author == u)) }

/-- Framework paginator, `Paginator.num_pages` with the default settings
used by `custom_paginator` (orphans = 0, allow_empty_first_page = True):
`ceil(max(1, count) / per_page)`. -/
def num_pages (count per_page : Nat) : Nat :=
  (max 1 count + per_page - 1) / per_page

/-- Accumulating decimal-digit parse over a character list; fails on the
first non-digit character. -/
def parseNatDigits (cs : List Char) (acc : Nat) : Option Nat :=
  match cs with
  | [] => some acc
  | c :: rest =>
    if c.isDigit then parseNatDigits rest (acc * 10 + (c.toNat - 48)) else none

/-- Python's `int(str)` as `validate_number` applies it to the page query
parameter: an optional sign followed by at least one decimal digit; any
other input raises, embedded as `none`.  (Python would also strip
surrounding whitespace, an inessential liberality elided here.) -/
def str_to_int (s : String) : Option Int :=
  match s.data with
  | [] => none
  | '-' :: rest =>
    if rest = [] then none else (parseNatDigits rest 0).map (fun n => -(n : Int))
  | '+' :: rest =>
    if rest = [] then none else (parseNatDigits rest 0).map (fun n => (n : Int))
  | cs => (parseNatDigits cs 0).map (fun n => (n : Int))

/-- Framework paginator, `Paginator.get_page`'s page-number resolution
(`validate_number` wrapped in the try/except of `get_page`): a parameter
that is absent or does not parse as an integer gives page 1
(PageNotAnInteger); an integer below 1 or above `num_pages` gives the last
page (EmptyPage). -/
def resolvePage (np : Nat) (param : Option String) : Nat :=
  match param.bind str_to_int with
  | none => 1
  | some k => if k < 1 then np else if k > (np : Int) then np else k.toNat

/-- Framework paginator, `Paginator.page(number)`: the slice
`items[(number-1)*per_page : number*per_page]` (orphans = 0, so the top
bound is simply capped at the item count, as list `take` does). -/
def pageSlice (items : List Post) (per_page number : Nat) : List Post :=
  (items.drop ((number - 1) * per_page)).take per_page

/-- core/utils.py `custom_paginator(request, post_list, number_pages)`:
builds `Paginator(post_list, number_pages)` and returns
`paginator.get_page(request.GET.get('page'))`.  The request is abstracted
to its `page` query parameter (`none` when absent). -/
def custom_paginator (post_list : List Post) (number_pages : Nat)
    (param : Option String) : List Post :=
  pageSlice post_list number_pages
    (resolvePage (num_pages post_list.length number_pages) param)

/-- Result relation of a post listing under `Post.Meta.ordering =
['-pub_date']`.  SQL `ORDER BY` fixes only the key order and gives no
guarantee for rows with equal keys, so a valid query result is any
permutation of the stored rows that is pairwise non-increasing in
`pub_date`. -/
def isOrderedFeed (stored result : List Post) : Prop :=
  stored.Perm result ∧
  result.Pairwise (fun a b => b.pub_date ≤ a.pub_date)

instance (stored result : List Post) :
    Decidable (isOrderedFeed stored result) := by
  unfold isOrderedFeed; infer_instance

/-- Statement that a listing keeps rows with equal `pub_date` in their
insertion (stored) order: rows at stored positions i < j with equal
timestamps occur in the result in that relative order. -/
def stableTies (stored result : List Post) : Prop :=
  ∀ i j : Fin stored.length, (i : Nat) < j →
    (stored.get i).pub_date = (stored.get j).pub_date →
    result.indexOf (stored.get i) < result.indexOf (stored.get j)

instance (stored result : List Post) :
    Decidable (stableTies stored result) := by
  unfold stableTies; infer_instance

/-- Modelled from the spec: the follow action of the view layer
(posts/views.py `profile_follow`, absent from src/) — per §4.4, follow is
create-if-absent (a repeated follow of an existing edge is a no-op, not an
error) and a self-follow is rejected, leaving the store unchanged. -/
def profile_follow (u a : Nat) (s : Store) : Store :=
  if u = a then s
  else if s.follows.any (fun f => f.user == u && f.author == a) then s
  else { s with
    follows := s.follows ++ [{ id := s.nextId, user := u, author := a }]
    nextId := s.nextId + 1 }

/-- Modelled from the spec: the unfollow action of the view layer
(posts/views.py `profile_unfollow`, absent from src/) — per §4.4, unfollow
deletes the edge if present and is a no-op (no error) otherwise. -/
def profile_unfollow (u a : Nat) (s : Store) : Store :=
  { s with
    follows := s.follows.filter (fun f => !(f.user == u && f.author == a)) }

/-- Modelled from the spec: `subscription_feed(viewer)` of the view layer
(posts/views.py `follow_index`, absent from src/) — per §4.2, the posts
whose author is followed by the viewer (Follow edges with user == viewer),
newest-first; like every listing it inherits the tie nondeterminism of
`ORDER BY`, hence a result relation. -/
def subscriptionFeed (viewer : Nat) (s : Store) (result : List Post) : Prop :=
  isOrderedFeed
    (s.posts.filter (fun p =>
      s.follows.any (fun f => f.user == viewer && f.author == p.author)))
    result

instance (viewer : Nat) (s : Store) (result : List Post) :
    Decidable (subscriptionFeed viewer s result) := by
  unfold subscriptionFeed; infer_instance

/-- Store holding exactly one Follow row for the pair (1, 2). -/
def pairStore1 : Store :=
  { users := [], groups := [], posts := [], comments := []
    follows := [{ id := 0, user := 1, author := 2 }], nextId := 1 }

/-- Store holding two Follow rows for the pair (1, 2). -/
def pairStore2 : Store :=
  { users := [], groups := [], posts := [], comments := []
    follows := [{ id := 0, user := 1, author := 2 },
                { id := 1, user := 1, author := 2 }]
    nextId := 2 }

/-- C1, counterexample: the Follow model declares no uniqueness constraint
on (user, author), so a second create for the already-present pair (1, 2)
does not fail with a constraint violation — it succeeds and leaves two
rows for the pair. -/
theorem C1_counterexample :
    followCreate 1 2 Store.empty = Except.ok pairStore1 ∧
    followCreate 1 2 pairStore1 = Except.ok pairStore2 ∧
    followCount 1 2 pairStore2 = 2 :=
  ⟨rfl, rfl, rfl⟩

/-- C1, amended: the store-level Follow create enforces only the
no-self-follow check; for user ≠ author it succeeds regardless of the rows
already present, incrementing the pair's row count — so pair uniqueness is
not a store constraint and duplicate rows are possible. -/
theorem C1_no_pair_uniqueness (u a : Nat) (s : Store) (h : u ≠ a) :
    ∃ s', followCreate u a s = Except.ok s' ∧
      followCount u a s' = followCount u a s + 1 := by
  simp only [followCreate, if_neg h]
  refine ⟨_, rfl, ?_⟩
  simp [followCount, List.filter_append]

/-- C1, witness: the amended statement at the concrete store that already
holds one row for the pair (1, 2). -/
theorem C1_no_pair_uniqueness_witness :
    ∃ s', followCreate 1 2 pairStore1 = Except.ok s' ∧
      followCount 1 2 s' = followCount 1 2 pairStore1 + 1 :=
  C1_no_pair_uniqueness 1 2 pairStore1 (by decide)

/-- C2: a self-follow create fails with the declared check-constraint
error and produces no store; a successful create preserves the invariant
that every stored Follow row has user ≠ author. -/
theorem C2_no_self_follow (u a : Nat) (s : Store)
    (hinv : ∀ f ∈ s.follows, f.user ≠ f.author) :
    (∃ e, followCreate u u s = Except.error e) ∧
    (∀ s', followCreate u u s ≠ Except.ok s') ∧
    (∀ s', followCreate u a s = Except.ok s' →
      ∀ f ∈ s'.follows, f.user ≠ f.author) := by
  refine ⟨⟨"Вы не можете подписаться на себя", by simp [followCreate]⟩,
    by simp [followCreate], ?_⟩
  intro s' h f hf
  by_cases hua : u = a
  · simp [followCreate, hua] at h
  · simp only [followCreate, if_neg hua, Except.ok.injEq] at h
    subst h
    rcases List.mem_append.mp hf with hmem | hmem
    · exact hinv f hmem
    · rcases List.mem_singleton.mp hmem with rfl
      exact hua

/-- C2, witness: the self-follow rejection and invariant preservation at
the empty store with users 3 and 4. -/
theorem C2_no_self_follow_witness :
    (∃ e, followCreate 3 3 Store.empty = Except.error e) ∧
    (∀ s', followCreate 3 3 Store.empty ≠ Except.ok s') ∧
    (∀ s', followCreate 3 4 Store.empty = Except.ok s' →
      ∀ f ∈ s'.follows, f.user ≠ f.author) :=
  C2_no_self_follow 3 4 Store.empty (by decide)

/-- C5, counterexample: the whitespace-only non-empty text " " is not
accepted — the required field check rejects it after stripping, before
`PostForm.clean_text` runs — so no post is stored for it. -/
theorem C5_counterexample :
    (" " : String) ≠ "" ∧
    createPost 1 " " none "" 0 Store.empty =
      Except.error "Обязательное поле." :=
  ⟨by decide, rfl⟩

/-- C5, amended: post-creation validation fails exactly when the submitted
text stripped of surrounding whitespace is empty — so the empty string and
every whitespace-only text are rejected — and any text containing a
non-whitespace character is accepted, storing the stripped, non-empty
text. -/
theorem C5_text_validation (author : Nat) (text : String)
    (grp : Option Nat) (image : String) (now : Nat) (s : Store) :
    ((∃ e, createPost author text grp image now s = Except.error e) ↔
      strip text = "") ∧
    (strip text ≠ "" →
      ∃ s', createPost author text grp image now s = Except.ok s' ∧
        ∃ p ∈ s'.posts, p.text = strip text ∧ p.text ≠ "" ∧
          p.author = author) := by
  by_cases h : strip text = ""
  · refine ⟨⟨fun _ => h, fun _ => ⟨"Обязательное поле.", ?_⟩⟩,
      fun hne => absurd h hne⟩
    simp [createPost, clean_text_field, h]
  · constructor
    · constructor
      · rintro ⟨e, he⟩
        simp [createPost, clean_text_field, clean_text, h] at he
      · intro h'
        exact absurd h' h
    · intro _
      simp only [createPost, clean_text_field, if_neg h, clean_text]
      refine ⟨_, rfl, ?_⟩
      exact ⟨_, List.mem_append_right _ (List.mem_singleton_self _),
        rfl, h, rfl⟩

/-- C5, witness: the text " x " contains a non-whitespace character, so it
is accepted and the stripped text "x" is stored. -/
theorem C5_text_validation_witness :
    ∃ s', createPost 1 " x " none "" 0 Store.empty = Except.ok s' ∧
      ∃ p ∈ s'.posts, p.text = strip " x " ∧ p.text ≠ "" ∧ p.author = 1 :=
  (C5_text_validation 1 " x " none "" 0 Store.empty).2 (by decide)

lemma followCount_pos_iff (u a : Nat) (s : Store) :
    0 < followCount u a s ↔
      s.follows.any (fun f => f.user == u && f.author == a) = true := by
  simp [followCount, List.length_pos_iff_exists_mem, List.mem_filter,
    List.any_eq_true]

lemma profile_follow_of_pos (u a : Nat) (s : Store)
    (h : 0 < followCount u a s) : profile_follow u a s = s := by
  rcases eq_or_ne u a with rfl | hua
  · simp [profile_follow]
  · simp [profile_follow, hua, (followCount_pos_iff u a s).mp h]

lemma followCount_profile_follow_of_zero (u a : Nat) (s : Store)
    (hua : u ≠ a) (h : followCount u a s = 0) :
    followCount u a (profile_follow u a s) = 1 := by
  have hany : s.follows.any (fun f => f.user == u && f.author == a) = false := by
    rcases Bool.eq_false_or_eq_true
      (s.follows.any (fun f => f.user == u && f.author == a)) with ht | hf
    · exact absurd ((followCount_pos_iff u a s).mpr ht) (by omega)
    · exact hf
  simp only [profile_follow, if_neg hua, hany, Bool.false_eq_true, if_false]
  simp only [followCount, List.filter_append, List.length_append] at h ⊢
  rw [h]
  simp

/-- C8: the follow action is create-if-absent and the unfollow action is
delete-if-present, hence both are idempotent: from any store whose rows for
the pair respect the at-most-one invariant, following twice leaves exactly
one row for the pair and the second call changes nothing; unfollowing twice
leaves zero rows, the second call changes nothing, and neither call can
fail (both are total functions on stores). -/
theorem C8_follow_unfollow_idempotent (u a : Nat) (s : Store)
    (hua : u ≠ a) (hle : followCount u a s ≤ 1) :
    (followCount u a (profile_follow u a (profile_follow u a s)) = 1 ∧
     profile_follow u a (profile_follow u a s) = profile_follow u a s) ∧
    (followCount u a (profile_unfollow u a (profile_unfollow u a s)) = 0 ∧
     profile_unfollow u a (profile_unfollow u a s) = profile_unfollow u a s) := by
  have hone : followCount u a (profile_follow u a s) = 1 := by
    rcases Nat.eq_zero_or_pos (followCount u a s) with h0 | hpos
    · exact followCount_profile_follow_of_zero u a s hua h0
    · rw [profile_follow_of_pos u a s hpos]; omega
  have hsecond : profile_follow u a (profile_follow u a s) = profile_follow u a s :=
    profile_follow_of_pos u a _ (by omega)
  have hunf : followCount u a (profile_unfollow u a s) = 0 := by
    simp only [followCount, profile_unfollow, List.filter_filter]
    simp
  have hunf2 : profile_unfollow u a (profile_unfollow u a s) =
      profile_unfollow u a s := by
    simp only [profile_unfollow, List.filter_filter]
    simp
  refine ⟨⟨?_, hsecond⟩, ?_, hunf2⟩
  · rw [hsecond, hone]
  · rw [hunf2]
    simp only [followCount, profile_unfollow, List.filter_filter]
    simp

/-- C8, witness: idempotence of follow and unfollow for the pair (1, 2)
starting from the empty store. -/
theorem C8_follow_unfollow_idempotent_witness :
    (followCount 1 2 (profile_follow 1 2 (profile_follow 1 2 Store.empty)) = 1 ∧
     profile_follow 1 2 (profile_follow 1 2 Store.empty) =
       profile_follow 1 2 Store.empty) ∧
    (followCount 1 2 (profile_unfollow 1 2 (profile_unfollow 1 2 Store.empty)) = 0 ∧
     profile_unfollow 1 2 (profile_unfollow 1 2 Store.empty) =
       profile_unfollow 1 2 Store.empty) :=
  C8_follow_unfollow_idempotent 1 2 Store.empty (by decide) (by decide)

/-- Demo group for concrete instantiations. -/
def demoGroup : Group :=
  { id := 7, title := "Тестовая группа", slug := "test-slug", description := "" }

/-- Demo post in the demo group, by user 1. -/
def demoPost : Post :=
  { id := 9, text := "Тестовый пост", pub_date := 3, author := 1
    group := some 7, image := "" }

/-- Demo comment by user 2 on the demo post. -/
def demoComment : Comment :=
  { id := 11, post := some 9, author := 2, text := "Тестовый комментарий"
    created := 4 }

/-- Demo follow edge: user 2 follows user 1. -/
def demoFollow : Follow := { id := 13, user := 2, author := 1 }

/-- Demo store with two users, one group, one post, one comment and one
follow edge. -/
def demoStore : Store :=
  { users := [1, 2], groups := [demoGroup], posts := [demoPost]
    comments := [demoComment], follows := [demoFollow], nextId := 14 }

/-- C3: deleting a Group deletes no Post — the post count is unchanged and
every post survives with all fields intact, its group field cleared exactly
when it referenced the deleted group; likewise deleting a Post deletes no
Comment — every comment survives with all fields intact, its post field
cleared exactly when it referenced the deleted post. -/
theorem C3_weak_references_cleared (g pid : Nat) (s : Store) :
    ((deleteGroup g s).posts.length = s.posts.length ∧
     ∀ p ∈ s.posts, ∃ p' ∈ (deleteGroup g s).posts,
       p'.id = p.id ∧ p'.text = p.text ∧ p'.pub_date = p.pub_date ∧
       p'.author = p.author ∧ p'.image = p.image ∧
       p'.group = (if p.group = some g then none else p.group)) ∧
    ((deletePost pid s).comments.length = s.comments.length ∧
     ∀ c ∈ s.comments, ∃ c' ∈ (deletePost pid s).comments,
       c'.id = c.id ∧ c'.author = c.author ∧ c'.text = c.text ∧
       c'.created = c.created ∧
       c'.post = (if c.post = some pid then none else c.post)) := by
  refine ⟨⟨by simp [deleteGroup], ?_⟩, by simp [deletePost], ?_⟩
  · intro p hp
    refine ⟨_, List.mem_map_of_mem
      (fun p => if p.group == some g then { p with group := none } else p) hp, ?_⟩
    by_cases hg : p.group = some g <;> simp [hg]
  · intro c hc
    refine ⟨_, List.mem_map_of_mem
      (fun c => if c.post == some pid then { c with post := none } else c) hc, ?_⟩
    by_cases hp : c.post = some pid <;> simp [deletePost, hp]

/-- C3, witness: in the demo store, deleting group 7 keeps the demo post
with its group cleared. -/
theorem C3_weak_references_cleared_witness :
    ∃ p' ∈ (deleteGroup 7 demoStore).posts,
      p'.id = demoPost.id ∧ p'.text = demoPost.text ∧
      p'.pub_date = demoPost.pub_date ∧ p'.author = demoPost.author ∧
      p'.image = demoPost.image ∧
      p'.group = (if demoPost.group = some 7 then none else demoPost.group) :=
  (C3_weak_references_cleared 7 9 demoStore).1.2 demoPost (by decide)

/-- C4: deleting a User removes exactly the posts authored by that user,
all comments authored by that user (surviving comments are exactly the
rest, with identity fields intact), and exactly the follow edges in which
the user appears on either side; groups are untouched. -/
theorem C4_user_delete_cascade (u : Nat) (s : Store) :
    (∀ p, p ∈ (deleteUser u s).posts ↔ p ∈ s.posts ∧ p.author ≠ u) ∧
    (∀ c ∈ (deleteUser u s).comments, c.author ≠ u) ∧
    ((deleteUser u s).comments.length =
      (s.comments.filter (fun c => !(c.author == u))).length) ∧
    (∀ c ∈ s.comments, c.author ≠ u → ∃ c' ∈ (deleteUser u s).comments,
      c'.id = c.id ∧ c'.author = c.author ∧ c'.text = c.text ∧
      c'.created = c.created) ∧
    (∀ f, f ∈ (deleteUser u s).follows ↔
      f ∈ s.follows ∧ f.user ≠ u ∧ f.author ≠ u) ∧
    (deleteUser u s).groups = s.groups := by
  refine ⟨?_, ?_, by simp [deleteUser], ?_, ?_, rfl⟩
  · intro p
    simp [deleteUser, List.mem_filter]
  · intro c hc
    simp only [deleteUser, List.mem_map] at hc
    rcases hc with ⟨c₀, hc₀, hmap⟩
    have h₀ : c₀.author ≠ u := by
      have := (List.mem_filter.mp hc₀).2
      simpa using this
    subst hmap
    split <;> simpa using h₀
  · intro c hc hcu
    refine ⟨_, List.mem_map_of_mem _ (List.mem_filter.mpr ⟨hc, by simpa using hcu⟩), ?_⟩
    split <;> simp
  · intro f
    simp [deleteUser, List.mem_filter, not_or]

/-- C4, witness: deleting user 1 from the demo store keeps the comment by
user 2 (the demo comment referenced user 1's post, which is cascaded
away, but the comment itself survives with its identity fields). -/
theorem C4_user_delete_cascade_witness :
    ∃ c' ∈ (deleteUser 1 demoStore).comments,
      c'.id = demoComment.id ∧ c'.author = demoComment.author ∧
      c'.text = demoComment.text ∧ c'.created = demoComment.created :=
  (C4_user_delete_cascade 1 demoStore).2.2.2.1 demoComment (by decide) (by decide)

/-- First of two posts sharing the timestamp 5. -/
def tiePost1 : Post :=
  { id := 1, text := "a", pub_date := 5, author := 1, group := none, image := "" }

/-- Second of two posts sharing the timestamp 5. -/
def tiePost2 : Post :=
  { id := 2, text := "b", pub_date := 5, author := 1, group := none, image := "" }

/-- Post with the later timestamp 9, used for ordering instances. -/
def latePost : Post :=
  { id := 3, text := "c", pub_date := 9, author := 1, group := none, image := "" }

/-- C7, counterexample: `Post.Meta.ordering = ['-pub_date']` declares no
secondary key, so a result listing two equal-timestamp posts in reversed
insertion order is a valid query result — the stable-insertion-order tie
break the claim asserts is not guaranteed by the code. -/
theorem C7_counterexample :
    isOrderedFeed [tiePost1, tiePost2] [tiePost2, tiePost1] ∧
    ¬ stableTies [tiePost1, tiePost2] [tiePost2, tiePost1] := by
  decide

/-- C7, amended: every valid listing is a permutation of the stored posts
in which, for any two positions with distinct timestamps, the
later-created post appears first; the order of posts sharing a timestamp
is left unspecified by the code. -/
theorem C7_newest_first (stored result : List Post)
    (h : isOrderedFeed stored result) :
    (∀ p, p ∈ result ↔ p ∈ stored) ∧
    ∀ i j : Fin result.length, (i : Nat) < j →
      (result.get i).pub_date ≠ (result.get j).pub_date →
      (result.get j).pub_date < (result.get i).pub_date := by
  rcases h with ⟨hperm, hpair⟩
  refine ⟨fun p => (hperm.mem_iff).symm, ?_⟩
  intro i j hij hne
  have := List.pairwise_iff_get.mp hpair i j hij
  omega

/-- C7, witness: the amended statement at a two-post listing with distinct
timestamps, newest first. -/
theorem C7_newest_first_witness :
    (∀ p, p ∈ [latePost, tiePost1] ↔ p ∈ [tiePost1, latePost]) ∧
    ∀ i j : Fin ([latePost, tiePost1] : List Post).length, (i : Nat) < j →
      (([latePost, tiePost1] : List Post).get i).pub_date ≠
        (([latePost, tiePost1] : List Post).get j).pub_date →
      (([latePost, tiePost1] : List Post).get j).pub_date <
        (([latePost, tiePost1] : List Post).get i).pub_date :=
  C7_newest_first [tiePost1, latePost] [latePost, tiePost1] (by decide)

/-- C9: any valid subscription feed for a viewer contains a post exactly
when the post is stored and its author is followed by the viewer; it is
ordered newest-first; and it is the empty list — not an error — when the
viewer follows no one. -/
theorem C9_subscription_feed_exact (viewer : Nat) (s : Store)
    (result : List Post) (h : subscriptionFeed viewer s result) :
    (∀ p, p ∈ result ↔ p ∈ s.posts ∧
      ∃ f ∈ s.follows, f.user = viewer ∧ f.author = p.author) ∧
    result.Pairwise (fun a b => b.pub_date ≤ a.pub_date) ∧
    ((∀ f ∈ s.follows, f.user ≠ viewer) → result = []) := by
  rcases h with ⟨hperm, hpair⟩
  refine ⟨?_, hpair, ?_⟩
  · intro p
    rw [← hperm.mem_iff]
    simp [List.mem_filter, List.any_eq_true]
  · intro hnone
    have hnil : s.posts.filter (fun p =>
        s.follows.any (fun f => f.user == viewer && f.author == p.author)) = [] := by
      rw [List.filter_eq_nil_iff]
      intro p _
      simp only [List.any_eq_true, not_exists, Bool.and_eq_true, beq_iff_eq]
      rintro f ⟨hf, hfv, _⟩
      exact hnone f hf hfv
    rw [hnil] at hperm
    exact hperm.symm.eq_nil

/-- C9, witness: in the demo store user 2 follows user 1, so the feed
containing exactly user 1's demo post satisfies the relation and the
theorem's conclusions follow for it. -/
theorem C9_subscription_feed_exact_witness :
    (∀ p, p ∈ [demoPost] ↔ p ∈ demoStore.posts ∧
      ∃ f ∈ demoStore.follows, f.user = 2 ∧ f.author = p.author) ∧
    ([demoPost] : List Post).Pairwise (fun a b => b.pub_date ≤ a.pub_date) ∧
    ((∀ f ∈ demoStore.follows, f.user ≠ 2) → ([demoPost] : List Post) = []) :=
  C9_subscription_feed_exact 2 demoStore [demoPost] (by decide)

/-- List of n posts with ids and timestamps 0 … n-1 (insertion order). -/
def demoPosts (n : Nat) : List Post :=
  (List.range n).map (fun i =>
    { id := i, text := "t", pub_date := i, author := 1, group := none
      image := "" })

/-- C6, counterexample: with 15 items, page size 10 and requested page
number 0 — a number below 1 — `get_page` returns the last page
(items 10 … 14), not page 1 as the claim's treat-as-1 rule predicts. -/
theorem C6_counterexample :
    custom_paginator (demoPosts 15) 10 (some "0") = (demoPosts 15).drop 10 ∧
    custom_paginator (demoPosts 15) 10 (some "0") ≠
      pageSlice (demoPosts 15) 10 1 := by
  decide

/-- C6, amended: pagination returns the slice `items[(k-1)*P : k*P]` for a
resolved page number k in [1, num_pages], where an absent or non-numeric
page parameter resolves to 1, an in-range requested number resolves to
itself, and a requested number below 1 or beyond the last page resolves to
the last page. -/
theorem C6_pagination_clamping (items : List Post) (P : Nat)
    (param : Option String) (hP : 0 < P) :
    ∃ k, 1 ≤ k ∧ k ≤ num_pages items.length P ∧
      custom_paginator items P param = pageSlice items P k ∧
      (param.bind str_to_int = none → k = 1) ∧
      (∀ z : Int, param.bind str_to_int = some z →
        ((1 ≤ z ∧ z ≤ (num_pages items.length P : Int)) → (k : Int) = z) ∧
        ((z < 1 ∨ (num_pages items.length P : Int) < z) →
          k = num_pages items.length P)) := by
  have hnp : 1 ≤ num_pages items.length P := by
    rw [num_pages, Nat.le_div_iff_mul_le hP]
    omega
  refine ⟨resolvePage (num_pages items.length P) param, ?_, ?_, rfl, ?_, ?_⟩
  · rcases hp : param.bind str_to_int with _ | z <;>
      simp only [resolvePage, hp]
    · omega
    · split_ifs <;> omega
  · rcases hp : param.bind str_to_int with _ | z <;>
      simp only [resolvePage, hp]
    · omega
    · split_ifs <;> omega
  · intro h
    simp only [resolvePage, h]
  · intro z hz
    simp only [resolvePage, hz]
    constructor
    · rintro ⟨h1, h2⟩
      rw [if_neg (by omega : ¬ z < 1),
        if_neg (by omega : ¬ z > (num_pages items.length P : Int))]
      omega
    · rintro (h' | h')
      · rw [if_pos h']
      · rw [if_neg (by omega : ¬ z < 1),
          if_pos (by omega : z > (num_pages items.length P : Int))]

/-- C6, witness: the amended statement at 15 items, page size 10 and
requested page 2. -/
theorem C6_pagination_clamping_witness :
    ∃ k, 1 ≤ k ∧ k ≤ num_pages (demoPosts 15).length 10 ∧
      custom_paginator (demoPosts 15) 10 (some "2") =
        pageSlice (demoPosts 15) 10 k ∧
      ((some "2").bind str_to_int = none → k = 1) ∧
      (∀ z : Int, (some "2").bind str_to_int = some z →
        ((1 ≤ z ∧ z ≤ (num_pages (demoPosts 15).length 10 : Int)) →
          (k : Int) = z) ∧
        ((z < 1 ∨ (num_pages (demoPosts 15).length 10 : Int) < z) →
          k = num_pages (demoPosts 15).length 10)) :=
  C6_pagination_clamping (demoPosts 15) 10 (some "2") (by decide)

/-- C10: one configured page size governs every page of a listing: for a
nonempty item list, every page before the last holds exactly P items and
the last page holds the remaining N - (num_pages - 1) * P items. -/
theorem C10_single_page_size (items : List Post) (P k : Nat)
    (hN : 0 < items.length) (hP : 0 < P)
    (hk1 : 1 ≤ k) (hk2 : k ≤ num_pages items.length P) :
    (pageSlice items P k).length =
      if k < num_pages items.length P then P
      else items.length - (num_pages items.length P - 1) * P := by
  have hlen : (pageSlice items P k).length =
      min P (items.length - (k - 1) * P) := by
    simp [pageSlice]
  obtain ⟨D, hD⟩ : ∃ D, num_pages items.length P = D := ⟨_, rfl⟩
  have hD' : D = (items.length + P - 1) / P := by
    rw [← hD, num_pages]
    have hmax : max 1 items.length = items.length := by omega
    rw [hmax]
  have hdiv := Nat.div_add_mod (items.length + P - 1) P
  have hmod := Nat.mod_lt (items.length + P - 1) hP
  rw [← hD'] at hdiv
  have hND : items.length ≤ P * D := by omega
  have hDN : P * D ≤ items.length + P - 1 := by omega
  rw [hD] at hk2 ⊢
  rw [hlen]
  have h4 : (k - 1) * P + P = P * k := by
    rcases Nat.exists_eq_add_of_le hk1 with ⟨k', hk'⟩
    subst hk'
    simp only [Nat.add_sub_cancel_left]
    ring
  by_cases hlt : k < D
  · rw [if_pos hlt]
    have h2 : P * (k + 1) ≤ P * D := Nat.mul_le_mul_left P (Nat.succ_le_of_lt hlt)
    have h3 : P * k + P ≤ P * D := by
      rw [Nat.mul_succ] at h2
      omega
    omega
  · rw [if_neg hlt]
    have hkD : k = D := by omega
    subst hkD
    omega

/-- C10, witness: 13 items at page size 10 — page 2 is the last page and
holds the remaining 3 items. -/
theorem C10_single_page_size_witness :
    (pageSlice (demoPosts 13) 10 2).length =
      if 2 < num_pages (demoPosts 13).length 10 then 10
      else (demoPosts 13).length - (num_pages (demoPosts 13).length 10 - 1) * 10 :=
  C10_single_page_size (demoPosts 13) 10 2 (by decide) (by decide) (by decide)
    (by decide)

end Yatube
